import Mathlib

/-!
Verification of the transaction-witness subsystem of the `chain` repository
(`chain-core/src/tx/witness/mod.rs`): the tagged RLP codec for input
witnesses and the address-verification engine `TxInWitness::verify_tx_address`.

The elliptic-curve primitives (key recovery, ECDSA/Schnorr verification,
hashing, redeem-address derivation) are an external collaborator of the
subsystem; following the spec they are injected as an abstract capability
record `Secp`, and curve-level values are represented by their serialized
byte forms (a compressed public key is its 33 bytes, a compact signature its
64 bytes).  The RLP library is modelled at the item level at which the
source code uses it (`item_count`, `val_at`, `list_at`): an `RlpItem` is
either a byte string or a list of items; the byte-level framing of items is
the rlp crate's concern, not this file's.
-/

/-- Fixed-length byte string of length `n`; bytes are modelled as `Nat`. -/
abbrev Bytes (n : Nat) := { l : List Nat // l.length = n }

/-- 32-byte digest (`H256` in the source). -/
abbrev H256 := Bytes 32

/-- Raw serialized signature, fixed 64 bytes (`RawSignature` in
`tx/witness/tree.rs`; modelled from the spec's fixed-length wrapper, the
file itself is not part of the sources at hand). -/
abbrev RawSignature := Bytes 64

/-- Raw serialized compressed public key, fixed 33 bytes (`RawPubkey` in
`tx/witness/tree.rs`; modelled from the spec's fixed-length wrapper). -/
abbrev RawPubkey := Bytes 33

/-- A secp256k1 public key, represented by its 33-byte compressed
serialization (`pk.serialize()`); curve validity is the crypto
collaborator's concern and is not modelled. -/
abbrev PublicKey := RawPubkey

/-- A 64-byte Schnorr signature, represented by its default serialization. -/
abbrev SchnorrSignature := RawSignature

/-- A recoverable ECDSA signature: a recovery id in `{0,1,2,3}` plus the
64-byte compact serialization (`serialize_compact`). -/
structure RecoverableSignature where
  recovery_id : Fin 4
  compact : RawSignature
deriving DecidableEq

/-- Dropping the recovery id (`sig.to_standard()`). -/
def RecoverableSignature.to_standard (sig : RecoverableSignature) : RawSignature :=
  sig.compact

/-- Redeem address value derived from a public key; its width is irrelevant
to this subsystem, so it is an unconstrained byte string. -/
abbrev RedeemAddress := List Nat

/-- Merkle path direction tag. Modelled from the spec: `MerklePath` lives in
`tx/witness/tree.rs`, which is not among the sources at hand; `mod.rs`
matches on exactly the two constructors `LFound` and `RFound`. -/
inductive MerklePath where
  | LFound : MerklePath
  | RFound : MerklePath
deriving DecidableEq

/-- Merkle proof step: a direction and a sibling digest. Modelled from the
spec (`ProofOp` is the tuple struct `ProofOp(MerklePath, H256)` of
`tx/witness/tree.rs`, used as such by `mod.rs`). -/
structure ProofOp where
  path : MerklePath
  sibling : H256
deriving DecidableEq

/-- The per-input witness: `TxInWitness` of `mod.rs`. -/
inductive TxInWitness where
  | BasicRedeem : RecoverableSignature → TxInWitness
  | TreeSig : PublicKey → SchnorrSignature → List ProofOp → TxInWitness
deriving DecidableEq

/-- The expected address: `ExtendedAddr` of `tx/data/address.rs`. Modelled
from the spec: a sum of a redeem-address value and a Merkle root digest. -/
inductive ExtendedAddr where
  | BasicRedeem : RedeemAddress → ExtendedAddr
  | OrTree : H256 → ExtendedAddr
deriving DecidableEq

/-- Errors of the secp256k1 collaborator (`secp256k1::Error`); only the
variants the subsystem constructs or can propagate are distinguished. -/
inductive Secp256k1Error where
  | IncorrectSignature : Secp256k1Error
  | InvalidMessage : Secp256k1Error
  | InvalidPublicKey : Secp256k1Error
  | InvalidSignature : Secp256k1Error
  | InvalidSecretKey : Secp256k1Error
  | InvalidRecoveryId : Secp256k1Error
deriving DecidableEq

/-- A 32-byte signing message (`secp256k1::Message`). -/
abbrev Message := H256

/-- Construction of a message from a byte slice (`Message::from_slice`):
succeeds exactly on 32-byte input. -/
def Message.from_slice (l : List Nat) : Except Secp256k1Error Message :=
  if h : l.length = 32 then .ok ⟨l, h⟩ else .error Secp256k1Error.InvalidMessage

/-- A transaction, as far as this subsystem sees it. Modelled from the spec:
`Tx` lives in `tx/data`, not among the sources at hand; `id` is the
already-derived identifier (`tx.id()`, a hash of the canonical serialization
computed by an external collaborator), `body` stands for the rest of the
transaction, which the witness subsystem never touches. -/
structure Tx where
  body : List Nat
  id : H256

/-- The injected crypto collaborator capability (spec section 6): hashing
(`txid_hash`), recoverable-key recovery, ECDSA verification, Schnorr
verification, and redeem-address derivation (`RedeemAddress::from`). -/
structure Secp where
  hash : List Nat → H256
  recover : Message → RecoverableSignature → Except Secp256k1Error PublicKey
  verify : Message → RawSignature → PublicKey → Except Secp256k1Error Unit
  schnorr_verify : Message → SchnorrSignature → PublicKey → Except Secp256k1Error Unit
  redeemAddressFrom : PublicKey → RedeemAddress

/-- One step of the Merkle root re-derivation loop of `verify_tx_address`:
`bs = 0x01 ∥ left ∥ right` with the running digest on the left for `LFound`
and on the right for `RFound`, then `txid_hash(bs)`. -/
def treeFoldStep (s : Secp) (pk_hash : H256) (op : ProofOp) : H256 :=
  match op with
  | ProofOp.mk MerklePath.LFound data => s.hash (1 :: (pk_hash.val ++ data.val))
  | ProofOp.mk MerklePath.RFound data => s.hash (1 :: (data.val ++ pk_hash.val))

/-- The `for op in ops.iter()` loop of `verify_tx_address`, folding the
proof ops over the running digest. -/
def treeFold (s : Secp) : List ProofOp → H256 → H256
  | [], h => h
  | op :: rest, h => treeFold s rest (treeFoldStep s h op)

/-- `TxInWitness::verify_tx_address` (mod.rs lines 146-193), with the crypto
collaborator injected as `s`. -/
def TxInWitness.verify_tx_address (s : Secp) (w : TxInWitness) (tx : Tx)
    (address : ExtendedAddr) : Except Secp256k1Error Unit :=
  match Message.from_slice tx.id.val with
  | .error e => .error e
  | .ok message =>
    match w, address with
    | TxInWitness.BasicRedeem sig, ExtendedAddr.BasicRedeem addr =>
      (match s.recover message sig with
       | .error e => .error e
       | .ok pk =>
         let expected_addr := s.redeemAddressFrom pk
         if addr ≠ expected_addr then .error Secp256k1Error.InvalidPublicKey
         else s.verify message sig.to_standard pk)
    | TxInWitness.TreeSig pk sig ops, ExtendedAddr.OrTree roothash =>
      let pk_hash := treeFold s ops (s.hash pk.val)
      if pk_hash ≠ roothash then .error Secp256k1Error.InvalidPublicKey
      else s.schnorr_verify message sig pk
    | _, _ => .error Secp256k1Error.InvalidSignature

/-- An RLP value at the item level: a byte string or a list of items. -/
inductive RlpItem where
  | str : List Nat → RlpItem
  | list : List RlpItem → RlpItem

/-- RLP decoder errors; the `Custom` messages the source constructs are
distinguished as named constructors carrying the spec's error names:
`MalformedWitness` is `Custom "Cannot decode a transaction witness"`,
`UnknownWitnessType` is `Custom "Unknown transaction type"`,
`InvalidRecoveryId` is `Custom "failed to decode recovery id"`,
`InvalidSignatureEncoding` covers the two signature-parse messages and
`InvalidPublicKeyEncoding` is `Custom "failed to public key"`. -/
inductive DecoderError where
  | RlpExpectedToBeList : DecoderError
  | RlpExpectedToBeData : DecoderError
  | RlpIsTooShort : DecoderError
  | RlpIsTooBig : DecoderError
  | RlpInvalidIndirection : DecoderError
  | RlpInvalidLength : DecoderError
  | MalformedWitness : DecoderError
  | UnknownWitnessType : DecoderError
  | InvalidRecoveryId : DecoderError
  | InvalidSignatureEncoding : DecoderError
  | InvalidPublicKeyEncoding : DecoderError
  | InvalidProofOp : DecoderError
deriving DecidableEq

/-- Canonical RLP encoding of an unsigned byte: zero is the empty string,
anything else a single byte. -/
def encU8 (n : Nat) : List Nat := if n = 0 then [] else [n]

/-- Decoding an RLP item as a `u8`, with the rlp crate's canonicality rules:
empty string is 0, a single nonzero byte is itself, a leading zero or an
over-long string is rejected, a list is not data. -/
def decodeU8 : RlpItem → Except DecoderError Nat
  | .str [] => .ok 0
  | .str [b] =>
    if 0 < b ∧ b < 256 then .ok b else .error DecoderError.RlpInvalidIndirection
  | .str (_ :: _ :: _) => .error DecoderError.RlpIsTooBig
  | .list _ => .error DecoderError.RlpExpectedToBeData

/-- Decoding an RLP item as a fixed-width byte wrapper of width `n`
(`RawSignature`, `RawPubkey`, `H256`): exactly an `n`-byte string. -/
def decodeBytes (n : Nat) : RlpItem → Except DecoderError (Bytes n)
  | .str l =>
    if h : l.length = n then .ok ⟨l, h⟩ else .error DecoderError.RlpInvalidLength
  | .list _ => .error DecoderError.RlpExpectedToBeData

/-- Item lookup by index inside a list item (the indexing part of
`rlp.val_at(i)`). -/
def itemAt : List RlpItem → Nat → Except DecoderError RlpItem
  | [], _ => .error DecoderError.RlpIsTooShort
  | x :: _, 0 => .ok x
  | _ :: xs, n + 1 => itemAt xs n

/-- `rlp.val_at::<u8>(i)`. -/
def val_at_u8 (items : List RlpItem) (i : Nat) : Except DecoderError Nat :=
  match itemAt items i with
  | .error e => .error e
  | .ok x => decodeU8 x

/-- `rlp.val_at(i)` at a fixed-width byte wrapper type. -/
def val_at_bytes (n : Nat) (items : List RlpItem) (i : Nat) :
    Except DecoderError (Bytes n) :=
  match itemAt items i with
  | .error e => .error e
  | .ok x => decodeBytes n x

/-- `RecoveryId::from_i32`, with the source's `map_err` to
`Custom "failed to decode recovery id"`: succeeds exactly on `{0,1,2,3}`. -/
def recoveryId_from_i32 (rid : Nat) : Except DecoderError (Fin 4) :=
  if h : rid < 4 then .ok ⟨rid, h⟩ else .error DecoderError.InvalidRecoveryId

/-- `RecoverableSignature::from_compact` on a 64-byte input; scalar-range
validity is the crypto collaborator's concern and is not modelled, so on a
well-shaped input the parse succeeds and is inverse to
`serialize_compact`. -/
def recoverableSignature_from_compact (raw : RawSignature) (recovery_id : Fin 4) :
    Except DecoderError RecoverableSignature :=
  .ok (RecoverableSignature.mk recovery_id raw)

/-- `PublicKey::from_slice` on a 33-byte input; curve validity is the crypto
collaborator's concern and is not modelled. -/
def publicKey_from_slice (raw : RawPubkey) : Except DecoderError PublicKey :=
  .ok raw

/-- `SchnorrSignature::from_default` on a 64-byte input; inverse of
`serialize_default`. -/
def schnorrSignature_from_default (raw : RawSignature) :
    Except DecoderError SchnorrSignature :=
  .ok raw

/-- Direction tag used on the wire for a `MerklePath` value. Modelled from
the spec: the `ProofOp` codec lives in `tx/witness/tree.rs`, not among the
sources at hand. -/
def MerklePath.tag : MerklePath → Nat
  | MerklePath.LFound => 0
  | MerklePath.RFound => 1

/-- Parsing a direction tag back. Modelled from the spec. -/
def MerklePath.fromTag : Nat → Except DecoderError MerklePath
  | 0 => .ok MerklePath.LFound
  | 1 => .ok MerklePath.RFound
  | _ => .error DecoderError.InvalidProofOp

/-- Wire shape of one `ProofOp`: a two-item list of the direction tag and
the 32-byte sibling digest. Modelled from the spec's homogeneous-list
description of the proof path. -/
def ProofOp.rlpEncode (op : ProofOp) : RlpItem :=
  .list [.str (encU8 op.path.tag), .str op.sibling.val]

/-- Decoding one `ProofOp`; exact inverse of `ProofOp.rlpEncode`. Modelled
from the spec. -/
def ProofOp.rlpDecode : RlpItem → Except DecoderError ProofOp
  | .list [t, d] =>
    (match decodeU8 t with
     | .error e => .error e
     | .ok tv =>
       match MerklePath.fromTag tv with
       | .error e => .error e
       | .ok dir =>
         match decodeBytes 32 d with
         | .error e => .error e
         | .ok dv => .ok (ProofOp.mk dir dv))
  | _ => .error DecoderError.InvalidProofOp

/-- Element-wise decoding of a homogeneous `ProofOp` list. -/
def decodeProofOps : List RlpItem → Except DecoderError (List ProofOp)
  | [] => .ok []
  | x :: xs =>
    (match ProofOp.rlpDecode x with
     | .error e => .error e
     | .ok op =>
       match decodeProofOps xs with
       | .error e => .error e
       | .ok ops => .ok (op :: ops))

/-- `rlp.list_at::<ProofOp>(i)` applied to an already-fetched item: the item
must itself be a list, decoded element-wise. -/
def list_at_proofops : RlpItem → Except DecoderError (List ProofOp)
  | .str _ => .error DecoderError.RlpExpectedToBeList
  | .list xs => decodeProofOps xs

/-- `impl Encodable for TxInWitness` (mod.rs lines 83-105): tag 0 with the
recovery id and compact signature for `BasicRedeem`, tag 1 with the
serialized key, serialized Schnorr signature and proof-op list for
`TreeSig`. -/
def TxInWitness.rlpEncode : TxInWitness → RlpItem
  | TxInWitness.BasicRedeem sig =>
    .list [.str (encU8 0), .str (encU8 sig.recovery_id.val), .str sig.compact.val]
  | TxInWitness.TreeSig pk sig ops =>
    .list [.str (encU8 1), .str pk.val, .str sig.val,
           .list (List.map ProofOp.rlpEncode ops)]

/-- `impl Decodable for TxInWitness` (mod.rs lines 107-139): check the item
count is in `{3,4}`, read the tag, dispatch on the `(tag, item_count)` pair,
and parse the per-variant fields in the source's order. -/
def TxInWitness.rlpDecode : RlpItem → Except DecoderError TxInWitness
  | .str _ => .error DecoderError.RlpExpectedToBeList
  | .list items =>
    if 3 ≤ items.length ∧ items.length ≤ 4 then
      match val_at_u8 items 0 with
      | .error e => .error e
      | .ok type_tag =>
        match type_tag, items.length with
        | 0, 3 =>
          (match val_at_u8 items 1 with
           | .error e => .error e
           | .ok rid =>
             match val_at_bytes 64 items 2 with
             | .error e => .error e
             | .ok raw_sig =>
               match recoveryId_from_i32 rid with
               | .error e => .error e
               | .ok recovery_id =>
                 match recoverableSignature_from_compact raw_sig recovery_id with
                 | .error e => .error e
                 | .ok sig => .ok (TxInWitness.BasicRedeem sig))
        | 1, 4 =>
          (match val_at_bytes 33 items 1 with
           | .error e => .error e
           | .ok raw_pk =>
             match publicKey_from_slice raw_pk with
             | .error e => .error e
             | .ok pk =>
               match val_at_bytes 64 items 2 with
               | .error e => .error e
               | .ok raw_sig =>
                 match schnorrSignature_from_default raw_sig with
                 | .error e => .error e
                 | .ok schnorrsig =>
                   match itemAt items 3 with
                   | .error e => .error e
                   | .ok opsItem =>
                     match list_at_proofops opsItem with
                     | .error e => .error e
                     | .ok ops => .ok (TxInWitness.TreeSig pk schnorrsig ops))
        | _, _ => .error DecoderError.UnknownWitnessType
    else .error DecoderError.MalformedWitness

/-- Spec-side dispatch of the verification engine (spec section 4.2 step 2),
with the already-derived signing message passed in explicitly; the message
is used verbatim in both scheme branches and no other part of the
transaction is consulted. -/
def verifyWithMessage (s : Secp) (message : Message) (w : TxInWitness)
    (address : ExtendedAddr) : Except Secp256k1Error Unit :=
  match w, address with
  | TxInWitness.BasicRedeem sig, ExtendedAddr.BasicRedeem addr =>
    (match s.recover message sig with
     | .error e => .error e
     | .ok pk =>
       let expected_addr := s.redeemAddressFrom pk
       if addr ≠ expected_addr then .error Secp256k1Error.InvalidPublicKey
       else s.verify message sig.to_standard pk)
  | TxInWitness.TreeSig pk sig ops, ExtendedAddr.OrTree roothash =>
    let pk_hash := treeFold s ops (s.hash pk.val)
    if pk_hash ≠ roothash then .error Secp256k1Error.InvalidPublicKey
    else s.schnorr_verify message sig pk
  | _, _ => .error Secp256k1Error.InvalidSignature

/-- Spec-side Merkle root re-derivation (spec section 4.2): the running
digest starts at `hash(serialize(pk))` and the path is folded left-to-right,
each step hashing `0x01 ∥ left ∥ right` with `(left, right)` being
`(running, sibling)` on `LFound` and `(sibling, running)` on `RFound`. -/
def specMerkleRoot (s : Secp) (pk : PublicKey) (path : List ProofOp) : H256 :=
  List.foldl
    (fun running op =>
      match op.path with
      | MerklePath.LFound => s.hash (1 :: (running.val ++ op.sibling.val))
      | MerklePath.RFound => s.hash (1 :: (op.sibling.val ++ running.val)))
    (s.hash pk.val) path

lemma Message.from_slice_val (h : H256) : Message.from_slice h.val = .ok h := by
  simp [Message.from_slice]

lemma treeFold_eq_foldl (s : Secp) (ops : List ProofOp) (h : H256) :
    treeFold s ops h = List.foldl (treeFoldStep s) h ops := by
  induction ops generalizing h with
  | nil => rfl
  | cons op rest ih => simp [treeFold, List.foldl, ih]

lemma treeFold_eq_specMerkleRoot (s : Secp) (pk : PublicKey) (ops : List ProofOp) :
    treeFold s ops (s.hash pk.val) = specMerkleRoot s pk ops := by
  rw [treeFold_eq_foldl, specMerkleRoot]
  congr 1
  funext running op
  cases op with
  | mk dir sib => cases dir <;> rfl

lemma verify_tree_sig_eq (s : Secp) (tx : Tx) (pk : PublicKey)
    (sig : SchnorrSignature) (path : List ProofOp) (root : H256) :
    TxInWitness.verify_tx_address s (TxInWitness.TreeSig pk sig path) tx
      (ExtendedAddr.OrTree root) =
    if treeFold s path (s.hash pk.val) = root then s.schnorr_verify tx.id sig pk
    else .error Secp256k1Error.InvalidPublicKey := by
  rw [TxInWitness.verify_tx_address, Message.from_slice_val]
  show (if treeFold s path (s.hash pk.val) ≠ root then _ else _) = _
  by_cases h : treeFold s path (s.hash pk.val) = root
  · simp [h]
  · simp [h]

lemma verify_basic_redeem_eq (s : Secp) (tx : Tx)
    (sig : RecoverableSignature) (addr : RedeemAddress) :
    TxInWitness.verify_tx_address s (TxInWitness.BasicRedeem sig) tx
      (ExtendedAddr.BasicRedeem addr) =
    match s.recover tx.id sig with
    | .error e => .error e
    | .ok pk =>
      if addr ≠ s.redeemAddressFrom pk then .error Secp256k1Error.InvalidPublicKey
      else s.verify tx.id sig.to_standard pk := by
  rw [TxInWitness.verify_tx_address, Message.from_slice_val]

lemma verify_mismatch_basic_ortree (s : Secp) (tx : Tx)
    (sig : RecoverableSignature) (root : H256) :
    TxInWitness.verify_tx_address s (TxInWitness.BasicRedeem sig) tx
      (ExtendedAddr.OrTree root) = .error Secp256k1Error.InvalidSignature := by
  rw [TxInWitness.verify_tx_address, Message.from_slice_val]

lemma verify_mismatch_tree_basic (s : Secp) (tx : Tx) (pk : PublicKey)
    (ssig : SchnorrSignature) (ops : List ProofOp) (addr : RedeemAddress) :
    TxInWitness.verify_tx_address s (TxInWitness.TreeSig pk ssig ops) tx
      (ExtendedAddr.BasicRedeem addr) = .error Secp256k1Error.InvalidSignature := by
  rw [TxInWitness.verify_tx_address, Message.from_slice_val]

/-- Claim C9: `verify_tx_address` derives exactly one signing message, taken
from the transaction's already-computed identifier `tx.id()`, and uses that
same message verbatim in both the BasicRedeem and the TreeSig branch: it is
equal to the spec-side dispatch `verifyWithMessage` applied to `tx.id`, and
in particular never reads (let alone hashes) the transaction body. -/
theorem verify_single_message_from_txid (s : Secp) (w : TxInWitness) (tx : Tx)
    (address : ExtendedAddr) :
    TxInWitness.verify_tx_address s w tx address = verifyWithMessage s tx.id w address := by
  rw [TxInWitness.verify_tx_address, Message.from_slice_val]
  rfl

/-- Claim C1: verifying a `TreeSig(pk, sig, path)` witness against an
`OrTree(rootDigest)` address re-derives the Merkle root exactly as the spec
describes (running digest initialized to `hash(serialize(pk))`, path folded
left-to-right with `hash(0x01 ∥ left ∥ right)` and the running digest placed
left on `LFound`, right on `RFound`); verification proceeds to the Schnorr
verdict precisely when the final digest equals `rootDigest`, and otherwise
fails with `AddressMismatch` (surfaced as `InvalidPublicKey`). -/
theorem verify_tree_sig_merkle_fold (s : Secp) (tx : Tx) (pk : PublicKey)
    (sig : SchnorrSignature) (path : List ProofOp) (root : H256) :
    TxInWitness.verify_tx_address s (TxInWitness.TreeSig pk sig path) tx
      (ExtendedAddr.OrTree root) =
    if specMerkleRoot s pk path = root then s.schnorr_verify tx.id sig pk
    else .error Secp256k1Error.InvalidPublicKey := by
  rw [verify_tree_sig_eq, treeFold_eq_specMerkleRoot]

/-- Claim C8: a `TreeSig` witness with an empty proof path verified against
`OrTree(rootDigest)` passes the Merkle check iff `hash(serialize(pk))`
equals `rootDigest` exactly; on equality the result is the Schnorr verdict,
on inequality it is `AddressMismatch` (surfaced as `InvalidPublicKey`). -/
theorem verify_single_leaf_tree (s : Secp) (tx : Tx) (pk : PublicKey)
    (sig : SchnorrSignature) (root : H256) :
    TxInWitness.verify_tx_address s (TxInWitness.TreeSig pk sig []) tx
      (ExtendedAddr.OrTree root) =
    if s.hash pk.val = root then s.schnorr_verify tx.id sig pk
    else .error Secp256k1Error.InvalidPublicKey := by
  rw [verify_tree_sig_eq]
  rfl

/-- Claim C2: a scheme/address-kind mismatch (`BasicRedeem` witness against
`OrTree` address, or `TreeSig` witness against `BasicRedeem` address) always
fails with `SchemeAddressMismatch` (surfaced as `InvalidSignature`); the
result is this constant for every crypto collaborator `s`, so no recovery,
no signature verification and no hashing of the proof path is performed. -/
theorem verify_scheme_address_mismatch (s : Secp) (tx : Tx)
    (sig : RecoverableSignature) (root : H256) (pk : PublicKey)
    (ssig : SchnorrSignature) (ops : List ProofOp) (addr : RedeemAddress) :
    TxInWitness.verify_tx_address s (TxInWitness.BasicRedeem sig) tx
      (ExtendedAddr.OrTree root) = .error Secp256k1Error.InvalidSignature ∧
    TxInWitness.verify_tx_address s (TxInWitness.TreeSig pk ssig ops) tx
      (ExtendedAddr.BasicRedeem addr) = .error Secp256k1Error.InvalidSignature :=
  And.intro (verify_mismatch_basic_ortree s tx sig root)
    (verify_mismatch_tree_basic s tx pk ssig ops addr)

/-- Claim C3: verifying a `BasicRedeem(sig)` witness against a
`BasicRedeem(addr)` address recovers a public key from the message and `sig`
(propagating the recovery error when recovery is impossible), derives the
redeem address of the recovered key, fails with `AddressMismatch` (surfaced
as `InvalidPublicKey`) when it differs from `addr`, and otherwise returns
the verdict of the full non-recoverable ECDSA verification. -/
theorem verify_basic_redeem_flow (s : Secp) (tx : Tx)
    (sig : RecoverableSignature) (addr : RedeemAddress) :
    TxInWitness.verify_tx_address s (TxInWitness.BasicRedeem sig) tx
      (ExtendedAddr.BasicRedeem addr) =
    match s.recover tx.id sig with
    | .error e => .error e
    | .ok pk =>
      if addr ≠ s.redeemAddressFrom pk then .error Secp256k1Error.InvalidPublicKey
      else s.verify tx.id sig.to_standard pk :=
  verify_basic_redeem_eq s tx sig addr

/-- All-zero 32-byte digest, used as a concrete sample. -/
def sampleH256 : H256 := ⟨List.replicate 32 0, by simp⟩

/-- All-one 32-byte digest, a second concrete sample distinct from
`sampleH256`. -/
def sampleH256one : H256 := ⟨List.replicate 32 1, by simp⟩

/-- All-zero 64-byte raw signature sample. -/
def sampleRawSig : RawSignature := ⟨List.replicate 64 0, by simp⟩

/-- Concrete 33-byte public-key sample. -/
def samplePk : PublicKey := ⟨List.replicate 33 2, by simp⟩

/-- Concrete recoverable-signature sample with recovery id 0. -/
def sampleRecSig : RecoverableSignature := RecoverableSignature.mk 0 sampleRawSig

/-- Concrete transaction sample. -/
def sampleTx : Tx := Tx.mk [] sampleH256

/-- Concrete crypto collaborator whose signature verification always fails
with `InvalidSignature`, whose recovery always yields `samplePk`, and whose
redeem-address derivation is constantly the empty address. -/
def sampleSecpFailVerify : Secp :=
  Secp.mk (fun _ => sampleH256) (fun _ _ => .ok samplePk)
    (fun _ _ _ => .error Secp256k1Error.InvalidSignature)
    (fun _ _ _ => .ok ()) (fun _ => [])

/-- Claim C10: `verify_tx_address` collapses distinct failure reasons onto
shared error values: a redeem-address mismatch and a Merkle-root mismatch
both return `InvalidPublicKey`; a scheme/address-kind mismatch returns
`InvalidSignature`; and an actual failed signature verification can return
that same `InvalidSignature` value on a correctly paired witness, so a
caller cannot distinguish those failure causes from the error alone. -/
theorem verify_error_collapsing :
    (∀ (s : Secp) (tx : Tx) (sig : RecoverableSignature) (addr : RedeemAddress)
        (pk : PublicKey), s.recover tx.id sig = .ok pk →
        addr ≠ s.redeemAddressFrom pk →
        TxInWitness.verify_tx_address s (TxInWitness.BasicRedeem sig) tx
          (ExtendedAddr.BasicRedeem addr) = .error Secp256k1Error.InvalidPublicKey) ∧
    (∀ (s : Secp) (tx : Tx) (pk : PublicKey) (sig : SchnorrSignature)
        (ops : List ProofOp) (root : H256),
        treeFold s ops (s.hash pk.val) ≠ root →
        TxInWitness.verify_tx_address s (TxInWitness.TreeSig pk sig ops) tx
          (ExtendedAddr.OrTree root) = .error Secp256k1Error.InvalidPublicKey) ∧
    (∀ (s : Secp) (tx : Tx) (sig : RecoverableSignature) (root : H256),
        TxInWitness.verify_tx_address s (TxInWitness.BasicRedeem sig) tx
          (ExtendedAddr.OrTree root) = .error Secp256k1Error.InvalidSignature) ∧
    (∃ (s : Secp) (tx : Tx) (sig : RecoverableSignature) (addr : RedeemAddress),
        TxInWitness.verify_tx_address s (TxInWitness.BasicRedeem sig) tx
          (ExtendedAddr.BasicRedeem addr) = .error Secp256k1Error.InvalidSignature) := by
  refine ⟨?_, ?_, ?_, ?_⟩
  · intro s tx sig addr pk h1 h2
    rw [verify_basic_redeem_eq, h1]
    simp [h2]
  · intro s tx pk sig ops root h
    rw [verify_tree_sig_eq]
    simp [h]
  · intro s tx sig root
    exact verify_mismatch_basic_ortree s tx sig root
  · refine ⟨sampleSecpFailVerify, sampleTx, sampleRecSig, [], ?_⟩
    rw [verify_basic_redeem_eq]
    rfl

/-- Witness for C10: the address-mismatch and root-mismatch conjuncts
instantiated at concrete inputs, with the hypotheses discharged by
evaluation. -/
theorem verify_error_collapsing_witness :
    TxInWitness.verify_tx_address sampleSecpFailVerify
      (TxInWitness.BasicRedeem sampleRecSig) sampleTx
      (ExtendedAddr.BasicRedeem [1]) = .error Secp256k1Error.InvalidPublicKey ∧
    TxInWitness.verify_tx_address sampleSecpFailVerify
      (TxInWitness.TreeSig samplePk sampleRawSig []) sampleTx
      (ExtendedAddr.OrTree sampleH256one) = .error Secp256k1Error.InvalidPublicKey :=
  And.intro
    (verify_error_collapsing.1 sampleSecpFailVerify sampleTx sampleRecSig [1]
      samplePk rfl (by decide))
    (verify_error_collapsing.2.1 sampleSecpFailVerify sampleTx samplePk
      sampleRawSig [] sampleH256one (by decide))

lemma decodeU8_encU8 (n : Nat) (h : n < 256) : decodeU8 (.str (encU8 n)) = .ok n := by
  by_cases h0 : n = 0
  · subst h0
    rfl
  · have : encU8 n = [n] := by simp [encU8, h0]
    rw [this]
    simp [decodeU8, Nat.pos_of_ne_zero h0, h]

lemma decodeBytes_val (n : Nat) (v : Bytes n) :
    decodeBytes n (.str v.val) = .ok v := by
  simp [decodeBytes]

lemma proofOp_decode_encode (op : ProofOp) :
    ProofOp.rlpDecode (ProofOp.rlpEncode op) = .ok op := by
  cases op with
  | mk dir sib =>
    cases dir
    · simp [ProofOp.rlpEncode, ProofOp.rlpDecode, MerklePath.tag,
        MerklePath.fromTag, decodeBytes_val, decodeU8_encU8 0 (by norm_num)]
    · simp [ProofOp.rlpEncode, ProofOp.rlpDecode, MerklePath.tag,
        MerklePath.fromTag, decodeBytes_val, decodeU8_encU8 1 (by norm_num)]

lemma decodeProofOps_map (ops : List ProofOp) :
    decodeProofOps (List.map ProofOp.rlpEncode ops) = .ok ops := by
  induction ops with
  | nil => rfl
  | cons op rest ih => simp [decodeProofOps, proofOp_decode_encode, ih]

/-- Claim C4: decoding the encoding of any constructible witness value
succeeds and returns that same value, in both the BasicRedeem and the
TreeSig case, the latter with an arbitrary proof path. -/
theorem witness_decode_encode_roundtrip (w : TxInWitness) :
    TxInWitness.rlpDecode (TxInWitness.rlpEncode w) = .ok w := by
  cases w with
  | BasicRedeem sig =>
    obtain ⟨rid, compact⟩ := sig
    have h0 : decodeU8 (.str (encU8 0)) = .ok 0 := decodeU8_encU8 0 (by norm_num)
    have h1 : decodeU8 (.str (encU8 rid.val)) = .ok rid.val :=
      decodeU8_encU8 rid.val (by omega)
    simp [TxInWitness.rlpEncode, TxInWitness.rlpDecode, val_at_u8, val_at_bytes,
      itemAt, h0, h1, decodeBytes_val, recoveryId_from_i32, rid.isLt,
      recoverableSignature_from_compact]
  | TreeSig pk sig ops =>
    have h1 : decodeU8 (.str (encU8 1)) = .ok 1 := decodeU8_encU8 1 (by norm_num)
    simp [TxInWitness.rlpEncode, TxInWitness.rlpDecode, val_at_u8, val_at_bytes,
      itemAt, h1, decodeBytes_val, publicKey_from_slice,
      schnorrSignature_from_default, list_at_proofops, decodeProofOps_map]

lemma decodeU8_canon {x : RlpItem} {n : Nat} (h : decodeU8 x = .ok n) :
    x = .str (encU8 n) := by
  cases x with
  | list xs => simp [decodeU8] at h
  | str l =>
    cases l with
    | nil =>
      simp [decodeU8] at h
      simp [← h, encU8]
    | cons b t =>
      cases t with
      | nil =>
        simp only [decodeU8] at h
        split at h
        · rename_i hb
          obtain rfl : b = n := by simpa using h
          have hb0 : b ≠ 0 := by omega
          simp [encU8, hb0]
        · simp at h
      | cons c t2 => simp [decodeU8] at h

lemma decodeBytes_canon {n : Nat} {x : RlpItem} {v : Bytes n}
    (h : decodeBytes n x = .ok v) : x = .str v.val := by
  cases x with
  | list xs => simp [decodeBytes] at h
  | str l =>
    simp only [decodeBytes] at h
    split at h
    · obtain rfl : (⟨l, by assumption⟩ : Bytes n) = v := by simpa using h
      rfl
    · simp at h

lemma fromTag_canon {n : Nat} {dir : MerklePath}
    (h : MerklePath.fromTag n = .ok dir) : n = MerklePath.tag dir := by
  match n, h with
  | 0, h =>
    obtain rfl : MerklePath.LFound = dir := by simpa [MerklePath.fromTag] using h
    rfl
  | 1, h =>
    obtain rfl : MerklePath.RFound = dir := by simpa [MerklePath.fromTag] using h
    rfl
  | n + 2, h => simp [MerklePath.fromTag] at h

lemma proofOp_decode_canon {x : RlpItem} {op : ProofOp}
    (h : ProofOp.rlpDecode x = .ok op) : x = ProofOp.rlpEncode op := by
  cases x with
  | str l => simp [ProofOp.rlpDecode] at h
  | list xs =>
    match xs, h with
    | [], h => simp [ProofOp.rlpDecode] at h
    | [t], h => simp [ProofOp.rlpDecode] at h
    | [t, d], h =>
      simp only [ProofOp.rlpDecode] at h
      cases htv : decodeU8 t with
      | error e => rw [htv] at h; simp at h
      | ok tv =>
        simp only [htv] at h
        cases hdir : MerklePath.fromTag tv with
        | error e => simp only [hdir] at h; simp at h
        | ok dir =>
          simp only [hdir] at h
          cases hdv : decodeBytes 32 d with
          | error e => simp only [hdv] at h; simp at h
          | ok dv =>
            simp only [hdv] at h
            obtain rfl : ProofOp.mk dir dv = op := by simpa using h
            rw [ProofOp.rlpEncode]
            rw [decodeU8_canon htv, decodeBytes_canon hdv, fromTag_canon hdir]
    | t :: d :: e :: r, h => simp [ProofOp.rlpDecode] at h

lemma decodeProofOps_canon {xs : List RlpItem} {ops : List ProofOp}
    (h : decodeProofOps xs = .ok ops) : xs = List.map ProofOp.rlpEncode ops := by
  induction xs generalizing ops with
  | nil =>
    obtain rfl : ([] : List ProofOp) = ops := by simpa [decodeProofOps] using h
    rfl
  | cons x rest ih =>
    simp only [decodeProofOps] at h
    cases hx : ProofOp.rlpDecode x with
    | error e => rw [hx] at h; simp at h
    | ok op =>
      rw [hx] at h
      cases hrest : decodeProofOps rest with
      | error e => rw [hrest] at h; simp at h
      | ok ops2 =>
        rw [hrest] at h
        obtain rfl : op :: ops2 = ops := by simpa using h
        simp [List.map, proofOp_decode_canon hx, ih hrest]

lemma list_at_proofops_canon {d : RlpItem} {ops : List ProofOp}
    (h : list_at_proofops d = .ok ops) :
    d = .list (List.map ProofOp.rlpEncode ops) := by
  cases d with
  | str l => simp [list_at_proofops] at h
  | list xs =>
    simp only [list_at_proofops] at h
    rw [decodeProofOps_canon h]

lemma list_len34 {α : Type} (l : List α) (h : 3 ≤ l.length ∧ l.length ≤ 4) :
    (∃ a b c, l = [a, b, c]) ∨ (∃ a b c d, l = [a, b, c, d]) := by
  match l with
  | [] => simp at h
  | [a] => simp at h
  | [a, b] => simp at h
  | [a, b, c] => exact Or.inl ⟨a, b, c, rfl⟩
  | [a, b, c, d] => exact Or.inr ⟨a, b, c, d, rfl⟩
  | a :: b :: c :: d :: e :: t =>
    exfalso
    simp [List.length_cons] at h

lemma recoveryId_val {rid : Nat} {r4 : Fin 4}
    (h : recoveryId_from_i32 rid = .ok r4) : r4.val = rid := by
  simp only [recoveryId_from_i32] at h
  split at h
  · obtain rfl : (⟨rid, by assumption⟩ : Fin 4) = r4 := by simpa using h
    rfl
  · simp at h

lemma rlpDecode_ok_shape {r : RlpItem} {w : TxInWitness}
    (h : TxInWitness.rlpDecode r = .ok w) :
    (∃ a b c sig, r = .list [a, b, c] ∧ decodeU8 a = .ok 0 ∧
      decodeU8 b = .ok sig.recovery_id.val ∧ decodeBytes 64 c = .ok sig.compact ∧
      w = TxInWitness.BasicRedeem sig) ∨
    (∃ a b c d pk sg ops, r = .list [a, b, c, d] ∧ decodeU8 a = .ok 1 ∧
      decodeBytes 33 b = .ok pk ∧ decodeBytes 64 c = .ok sg ∧
      list_at_proofops d = .ok ops ∧ w = TxInWitness.TreeSig pk sg ops) := by
  cases r with
  | str l => simp [TxInWitness.rlpDecode] at h
  | list items =>
    simp only [TxInWitness.rlpDecode] at h
    split at h
    · rename_i hlen
      rcases list_len34 items hlen with ⟨a, b, c, rfl⟩ | ⟨a, b, c, d, rfl⟩
      · cases ht : decodeU8 a with
        | error e => simp [val_at_u8, itemAt, ht] at h
        | ok t =>
          simp only [val_at_u8, val_at_bytes, itemAt, ht] at h
          norm_num at h
          rcases t with _ | _ | t
          · left
            simp only [] at h
            cases hb : decodeU8 b with
            | error e => simp only [hb] at h; simp at h
            | ok rid =>
              simp only [hb] at h
              cases hc : decodeBytes 64 c with
              | error e => simp only [hc] at h; simp at h
              | ok raw =>
                simp only [hc] at h
                cases hr : recoveryId_from_i32 rid with
                | error e => simp only [hr] at h; simp at h
                | ok rec4 =>
                  simp only [hr, recoverableSignature_from_compact] at h
                  obtain rfl : TxInWitness.BasicRedeem (RecoverableSignature.mk rec4 raw) = w := by
                    simpa using h
                  refine ⟨a, b, c, RecoverableSignature.mk rec4 raw, rfl, ht, ?_, hc, rfl⟩
                  show decodeU8 b = Except.ok rec4.val
                  rw [recoveryId_val hr]
                  exact hb
          · simp at h
          · simp at h
      · cases ht : decodeU8 a with
        | error e => simp [val_at_u8, itemAt, ht] at h
        | ok t =>
          simp only [val_at_u8, val_at_bytes, itemAt, ht] at h
          norm_num at h
          rcases t with _ | _ | t
          · simp at h
          · right
            cases hb : decodeBytes 33 b with
            | error e => simp only [hb] at h; simp at h
            | ok raw_pk =>
              simp only [hb, publicKey_from_slice] at h
              cases hc : decodeBytes 64 c with
              | error e => simp only [hc] at h; simp at h
              | ok raw_sig =>
                simp only [hc, schnorrSignature_from_default] at h
                cases hd : list_at_proofops d with
                | error e => simp only [hd] at h; simp at h
                | ok ops =>
                  simp only [hd] at h
                  obtain rfl : TxInWitness.TreeSig raw_pk raw_sig ops = w := by
                    simpa using h
                  exact ⟨a, b, c, d, raw_pk, raw_sig, ops, rfl, ht, hb, hc, hd, rfl⟩
          · simp at h
    · simp at h

/-- Claim C5: any RLP value that decodes successfully to a witness is
reproduced exactly by re-encoding the decoded witness; the codec admits no
variability in tag, field order or list framing (byte-level framing of
items being the rlp collaborator's concern). -/
theorem witness_encode_decode_canonical (r : RlpItem) (w : TxInWitness)
    (h : TxInWitness.rlpDecode r = .ok w) : TxInWitness.rlpEncode w = r := by
  rcases rlpDecode_ok_shape h with
    ⟨a, b, c, sig, rfl, ha, hb, hc, rfl⟩ | ⟨a, b, c, d, pk, sg, ops, rfl, ha, hb, hc, hd, rfl⟩
  · rw [TxInWitness.rlpEncode, decodeU8_canon ha, decodeU8_canon hb, decodeBytes_canon hc]
  · rw [TxInWitness.rlpEncode, decodeU8_canon ha, decodeBytes_canon hb,
      decodeBytes_canon hc, list_at_proofops_canon hd]

/-- Witness for C5: the canonicality theorem applied at a concrete
successfully-decoding item. -/
theorem witness_encode_decode_canonical_witness :
    TxInWitness.rlpEncode (TxInWitness.BasicRedeem sampleRecSig) =
      .list [.str [], .str [], .str (List.replicate 64 0)] :=
  witness_encode_decode_canonical
    (.list [.str [], .str [], .str (List.replicate 64 0)])
    (TxInWitness.BasicRedeem sampleRecSig) (by rfl)

/-- Claim C6: decoding reads the field count first and fails with
`MalformedWitness` when it is not in `{3,4}`; when the tag then reads
successfully and the `(tag, fieldCount)` pair is neither `(0,3)` nor
`(1,4)` it fails with `UnknownWitnessType`; and no input with any other
leading tag/field-count pair ever decodes successfully. -/
theorem decode_tag_fieldcount_contract :
    (∀ (items : List RlpItem), ¬(3 ≤ items.length ∧ items.length ≤ 4) →
      TxInWitness.rlpDecode (.list items) = .error DecoderError.MalformedWitness) ∧
    (∀ (items : List RlpItem) (t : Nat), (3 ≤ items.length ∧ items.length ≤ 4) →
      val_at_u8 items 0 = .ok t → ¬(t = 0 ∧ items.length = 3) →
      ¬(t = 1 ∧ items.length = 4) →
      TxInWitness.rlpDecode (.list items) = .error DecoderError.UnknownWitnessType) ∧
    (∀ (r : RlpItem) (w : TxInWitness), TxInWitness.rlpDecode r = .ok w →
      ∃ (items : List RlpItem) (t : Nat), r = .list items ∧
        val_at_u8 items 0 = .ok t ∧
        ((t = 0 ∧ items.length = 3) ∨ (t = 1 ∧ items.length = 4))) := by
  refine ⟨?_, ?_, ?_⟩
  · intro items hlen
    rw [TxInWitness.rlpDecode, if_neg hlen]
  · intro items t hlen ht h03 h14
    rw [TxInWitness.rlpDecode, if_pos hlen]
    simp only [ht]
    have hl34 : items.length = 3 ∨ items.length = 4 := by omega
    rcases hl34 with hl | hl
    · rw [hl]
      rcases t with _ | _ | t
      · exact absurd ⟨rfl, hl⟩ h03
      · rfl
      · rfl
    · rw [hl]
      rcases t with _ | _ | t
      · rfl
      · exact absurd ⟨rfl, hl⟩ h14
      · rfl
  · intro r w h
    rcases rlpDecode_ok_shape h with
      ⟨a, b, c, sig, rfl, ha, _, _, _⟩ | ⟨a, b, c, d, pk, sg, ops, rfl, ha, _, _, _, _⟩
    · exact ⟨[a, b, c], 0, rfl, by simp [val_at_u8, itemAt, ha], Or.inl ⟨rfl, rfl⟩⟩
    · exact ⟨[a, b, c, d], 1, rfl, by simp [val_at_u8, itemAt, ha], Or.inr ⟨rfl, rfl⟩⟩

/-- Witness for C6: the three conjuncts instantiated at concrete inputs (an
empty list, a tag-2 three-item list, and a successfully decoding tag-0
item), each hypothesis discharged by evaluation. -/
theorem decode_tag_fieldcount_contract_witness :
    TxInWitness.rlpDecode (.list []) = .error DecoderError.MalformedWitness ∧
    TxInWitness.rlpDecode (.list [.str [2], .str [], .str []]) =
      .error DecoderError.UnknownWitnessType ∧
    (∃ (items : List RlpItem) (t : Nat),
      RlpItem.list [.str [], .str [], .str (List.replicate 64 3)] = .list items ∧
      val_at_u8 items 0 = .ok t ∧
      ((t = 0 ∧ items.length = 3) ∨ (t = 1 ∧ items.length = 4))) :=
  ⟨decode_tag_fieldcount_contract.1 [] (by decide),
   decode_tag_fieldcount_contract.2.1 [.str [2], .str [], .str []] 2 (by decide)
     (by rfl) (by decide) (by decide),
   decode_tag_fieldcount_contract.2.2
     (.list [.str [], .str [], .str (List.replicate 64 3)])
     (TxInWitness.BasicRedeem (RecoverableSignature.mk 0 ⟨List.replicate 64 3, by simp⟩))
     (by rfl)⟩

/-- Counterexample to C7 as stated: a tag-0 three-field encoding whose
recovery indicator is 4 (outside `{0,1,2,3}`) but whose signature field is
not a well-formed 64-byte string fails with the signature field's decode
error, not with `InvalidRecoveryId`, because the source parses the
signature field before checking the recovery id
(`rlp.val_at(2)` on line 117 precedes `RecoveryId::from_i32` on line 118). -/
theorem recovery_id_boundary_counterexample :
    TxInWitness.rlpDecode (.list [.str [], .str [4], .list []]) =
      .error DecoderError.RlpExpectedToBeData ∧
    DecoderError.RlpExpectedToBeData ≠ DecoderError.InvalidRecoveryId :=
  ⟨rfl, by decide⟩

/-- Claim C7 as amended: for every tag-0 encoding whose recovery indicator
parses as a byte outside `{0,1,2,3}` and whose signature field is a
well-formed 64-byte string, decoding fails with `InvalidRecoveryId`. -/
theorem recovery_id_boundary (t0 t1 : RlpItem) (rid : Nat) (sigbytes : List Nat)
    (h0 : decodeU8 t0 = .ok 0) (h1 : decodeU8 t1 = .ok rid) (h4 : 4 ≤ rid)
    (hsig : sigbytes.length = 64) :
    TxInWitness.rlpDecode (.list [t0, t1, .str sigbytes]) =
      .error DecoderError.InvalidRecoveryId := by
  have hn : ¬ rid < 4 := by omega
  simp only [TxInWitness.rlpDecode, val_at_u8, val_at_bytes, itemAt, h0, h1,
    List.length_cons, List.length_nil]
  norm_num
  simp [decodeBytes, hsig, recoveryId_from_i32, hn]

/-- Witness for the amended C7: recovery indicator 4 with a well-formed
64-byte signature field fails with `InvalidRecoveryId`. -/
theorem recovery_id_boundary_witness :
    TxInWitness.rlpDecode (.list [.str [], .str [4], .str (List.replicate 64 0)]) =
      .error DecoderError.InvalidRecoveryId :=
  recovery_id_boundary (.str []) (.str [4]) 4 (List.replicate 64 0)
    (by rfl) (by rfl) (by decide) (by decide)
